import Mathlib

/-!
Verification development for the persistence layer in `src/db.py`
(users, locations, time-bound comments, position samples).

Modelling conventions:
* Time (`datetime.datetime`) is modelled as `Nat` seconds; `timedelta(days=1)`
  is `86400` and `timedelta(minutes=3)` is `180`. Each call of
  `datetime.datetime.now()` in the source becomes one explicit clock-reading
  parameter, in source order.
* `os.urandom(64)` is modelled as an explicit `List Nat` of bytes passed in by
  the caller (external randomness), and `hashlib.sha1(...).hexdigest()` is
  implemented below as `sha1_hexdigest` on byte lists (Nat arithmetic with
  explicit `% 2 ^ 32`).
* `bcrypt.hashpw` with its random salt is modelled as an explicit function
  parameter `hashpw : String → String` (external randomized primitive).
* The ORM relationship attributes (`favorites`, `comments`, `positions`,
  `fav_users`) are views over the database state; entities hold only their
  columns and a `DB` record holds the tables, with the relationship reads
  modelled as queries over `DB`.
* JSON-like serialized payloads are association lists `List (String × Value)`;
  nested objects produced by `simple_serialize` are flat, so they are
  association lists of primitive values.
* Fallible operations (the unchecked dereferences in `Comment.serialize` and
  `Location.__init__`) return `Option`: `none` models the raised exception.
-/

/-- Primitive JSON-like value occurring inside a simple serialization. -/
inductive Prim where
  | pInt (n : Int)
  | pStr (s : String)
  | pBool (b : Bool)
deriving DecidableEq, Repr

/-- Flat JSON-like object, the shape of every `simple_serialize` output. -/
abbrev SimpleObj := List (String × Prim)

/-- JSON-like value occurring in a full `serialize` output: a primitive or a
list of nested flat objects. -/
inductive Value where
  | prim (p : Prim)
  | objs (l : List SimpleObj)
deriving DecidableEq, Repr

/-- JSON-like object, the shape of every `serialize` output. -/
abbrev Obj := List (String × Value)

/-- Embeds a flat object into a full object, so the two serialization levels
can be compared key by key. -/
def liftObj (o : SimpleObj) : Obj :=
  o.map (fun kp => (kp.1, Value.prim kp.2))

/-- Models Python `str(...)` applied to a stored timestamp. -/
def str_dt (t : Nat) : String :=
  toString t

/-- Columns of the `users` table (src/db.py lines 27-40). The relationship
attributes `comments`, `positions`, `favorites` are views over `DB`. -/
structure User where
  id : Int
  name : String
  email : String
  password_digest : String
  session_token : String
  session_expiration : Nat
  update_token : String
deriving DecidableEq, Repr

/-- Columns of the `locations` table (src/db.py lines 117-126). -/
structure Location where
  id : Int
  name : String
  address : String
  latitude : Int
  longitude : Int
deriving DecidableEq, Repr

/-- Columns of the `comments` table (src/db.py lines 171-182). -/
structure Comment where
  id : Int
  text : String
  number : Int
  user_id : Int
  location_id : Int
  timestamp : Nat
  expired : Bool
  session_expiration : Nat
deriving DecidableEq, Repr

/-- Columns of the `positions` table (src/db.py lines 227-232). -/
structure Position where
  id : Int
  user_id : Int
  latitude : Int
  longitude : Int
  timestamp : Nat
deriving DecidableEq, Repr

/-- Database state: the four tables plus the `association` join table of
(user_id, location_id) pairs (src/db.py lines 12-16). -/
structure DB where
  users : List User
  locations : List Location
  comments : List Comment
  positions : List Position
  association : List (Int × Int)
deriving DecidableEq, Repr

/-- The `favorites` relationship of a user: locations joined through the
association table on the user id (src/db.py lines 34-35). -/
def DB.favoritesOf (db : DB) (u : User) : List Location :=
  (db.association.filter (fun p => p.1 == u.id)).filterMap
    (fun p => db.locations.find? (fun l => l.id == p.2))

/-- The `comments` relationship of a user (src/db.py line 32). -/
def DB.commentsOf (db : DB) (u : User) : List Comment :=
  db.comments.filter (fun c => c.user_id == u.id)

/-- The `positions` relationship of a user (src/db.py line 33). -/
def DB.positionsOf (db : DB) (u : User) : List Position :=
  db.positions.filter (fun p => p.user_id == u.id)

/-!
SHA-1 (the `hashlib.sha1` primitive used by `User._urlsafe_base_64`),
implemented on byte lists with `Nat` arithmetic modulo `2 ^ 32`.
-/

/-- Left-rotation of a 32-bit word by `s` bits. -/
def rotl32 (s x : Nat) : Nat :=
  ((x <<< s) ||| (x >>> (32 - s))) % 4294967296

/-- Packs four bytes into one big-endian 32-bit word. -/
def word_of_bytes (b0 b1 b2 b3 : Nat) : Nat :=
  (b0 % 256) * 16777216 + (b1 % 256) * 65536 + (b2 % 256) * 256 + b3 % 256

/-- Turns a 64-byte block into its 16 big-endian 32-bit words. -/
def words_of_block : List Nat → List Nat
  | b0 :: b1 :: b2 :: b3 :: rest => word_of_bytes b0 b1 b2 b3 :: words_of_block rest
  | _ => []

/-- SHA-1 padding: append `0x80`, zero bytes up to 56 mod 64, then the
64-bit big-endian bit length of the message. -/
def sha1_pad (msg : List Nat) : List Nat :=
  let L := msg.length
  msg ++ [128] ++ List.replicate ((119 - L % 64) % 64) 0 ++
    (List.range 8).map (fun i => ((8 * L) >>> (8 * (7 - i))) % 256)

/-- Splits a list into 64-byte blocks; the fuel argument bounds the number
of blocks and is instantiated with the list length. -/
def chunks64Aux : Nat → List Nat → List (List Nat)
  | 0, _ => []
  | _, [] => []
  | fuel + 1, a :: rest => (a :: rest).take 64 :: chunks64Aux fuel ((a :: rest).drop 64)

/-- Splits a padded message into 64-byte blocks. -/
def chunks64 (l : List Nat) : List (List Nat) :=
  chunks64Aux l.length l

/-- Extends the 16 message words by `n` further schedule words. -/
def sha1_extend (ws : List Nat) : Nat → List Nat
  | 0 => ws
  | n + 1 =>
    let ws' := sha1_extend ws n
    ws' ++ [rotl32 1 ((ws'.getD (ws'.length - 3) 0) ^^^ (ws'.getD (ws'.length - 8) 0)
      ^^^ (ws'.getD (ws'.length - 14) 0) ^^^ (ws'.getD (ws'.length - 16) 0))]

/-- The SHA-1 round function for round `t`. -/
def sha1_f (t b c d : Nat) : Nat :=
  if t < 20 then (b &&& c) ||| ((b ^^^ 4294967295) &&& d)
  else if t < 40 then b ^^^ c ^^^ d
  else if t < 60 then (b &&& c) ||| (b &&& d) ||| (c &&& d)
  else b ^^^ c ^^^ d

/-- The SHA-1 round constant for round `t`. -/
def sha1_k (t : Nat) : Nat :=
  if t < 20 then 1518500249
  else if t < 40 then 1859775393
  else if t < 60 then 2400959708
  else 3395469782

/-- Processes one 64-byte block, updating the five-word state. -/
def sha1_compress (h : Nat × Nat × Nat × Nat × Nat) (block : List Nat) :
    Nat × Nat × Nat × Nat × Nat :=
  let ws := sha1_extend (words_of_block block) 64
  let fin := ws.enum.foldl
    (fun st tw =>
      let temp := (rotl32 5 st.1 + sha1_f tw.1 st.2.1 st.2.2.1 st.2.2.2.1
        + st.2.2.2.2 + sha1_k tw.1 + tw.2) % 4294967296
      (temp, st.1, rotl32 30 st.2.1, st.2.2.1, st.2.2.2.1))
    h
  ((h.1 + fin.1) % 4294967296, (h.2.1 + fin.2.1) % 4294967296,
   (h.2.2.1 + fin.2.2.1) % 4294967296, (h.2.2.2.1 + fin.2.2.2.1) % 4294967296,
   (h.2.2.2.2 + fin.2.2.2.2) % 4294967296)

/-- The five-word SHA-1 digest of a byte list. -/
def sha1_digest (msg : List Nat) : Nat × Nat × Nat × Nat × Nat :=
  (chunks64 (sha1_pad msg)).foldl sha1_compress
    (1732584193, 4023233417, 2562383102, 271733878, 3285377520)

/-- The sixteen lowercase hexadecimal digits. -/
def hexDigits : List Char :=
  "0123456789abcdef".data

/-- Renders a nibble as a lowercase hexadecimal character. -/
def hexChar (n : Nat) : Char :=
  if n < 10 then Char.ofNat (48 + n) else Char.ofNat (87 + n)

/-- Renders a 32-bit word as exactly eight hexadecimal characters. -/
def toHex8 (n : Nat) : String :=
  String.mk ((List.range 8).map (fun i => hexChar ((n >>> (4 * (7 - i))) % 16)))

/-- Models Python `hashlib.sha1(msg).hexdigest()`. -/
def sha1_hexdigest (msg : List Nat) : String :=
  let h := sha1_digest msg
  toHex8 h.1 ++ toHex8 h.2.1 ++ toHex8 h.2.2.1 ++ toHex8 h.2.2.2.1 ++ toHex8 h.2.2.2.2

/-!
User operations (src/db.py lines 42-107).
-/

/-- Embeds `User._urlsafe_base_64` (src/db.py lines 52-56): the SHA-1 hex
digest of a random byte string; the random `os.urandom(64)` draw is the
explicit `randomBytes` argument. -/
def urlsafe_base_64 (randomBytes : List Nat) : String :=
  sha1_hexdigest randomBytes

/-- Embeds `User.renew_session` (src/db.py lines 58-65): a fresh session
token, expiration one day (86400 s) after the single clock reading `now`,
and a fresh update token. `r1` and `r2` are the two independent
`os.urandom(64)` draws, in source order. -/
def User.renew_session (u : User) (r1 r2 : List Nat) (now : Nat) : User :=
  { u with
    session_token := urlsafe_base_64 r1,
    session_expiration := now + 86400,
    update_token := urlsafe_base_64 r2 }

/-- Embeds `User.__init__` (src/db.py lines 42-50): stores name and email,
hashes the password (the randomized `bcrypt.hashpw` with its salt is the
explicit `hashpw` argument), then calls `renew_session`. The `id` column is
assigned by the database on insert, not by the constructor; the session
columns are unset until `renew_session` overwrites them. -/
def User.construct (hashpw : String → String) (name email password : String)
    (r1 r2 : List Nat) (now : Nat) : User :=
  User.renew_session
    { id := 0, name := name, email := email, password_digest := hashpw password,
      session_token := "", session_expiration := 0, update_token := "" }
    r1 r2 now

/-- Embeds `User.verify_session_token` (src/db.py lines 73-77): the candidate
must equal the stored token and the clock reading `now` must be strictly
before the stored expiration. -/
def User.verify_session_token (u : User) (session_token : String) (now : Nat) : Bool :=
  session_token == u.session_token && decide (now < u.session_expiration)

/-- Embeds `User.verify_update_token` (src/db.py lines 79-83): a pure
equality test against the stored update token; no clock is read. -/
def User.verify_update_token (u : User) (update_token : String) : Bool :=
  update_token == u.update_token

/-- Embeds `Location.simple_serialize` (src/db.py lines 153-161). -/
def Location.simple_serialize (l : Location) : SimpleObj :=
  [("id", Prim.pInt l.id),
   ("name", Prim.pStr l.name),
   ("address", Prim.pStr l.address)]

/-- Embeds `User.serialize` (src/db.py lines 85-97). -/
def User.serialize (db : DB) (u : User) : Obj :=
  [("id", Value.prim (Prim.pInt u.id)),
   ("name", Value.prim (Prim.pStr u.name)),
   ("email", Value.prim (Prim.pStr u.email)),
   ("favorites", Value.objs ((db.favoritesOf u).map Location.simple_serialize)),
   ("session_token", Value.prim (Prim.pStr u.session_token)),
   ("session_expiration", Value.prim (Prim.pStr (str_dt u.session_expiration))),
   ("update_token", Value.prim (Prim.pStr u.update_token))]

/-- Embeds `User.simple_serialize` (src/db.py lines 99-107). -/
def User.simple_serialize (u : User) : SimpleObj :=
  [("id", Prim.pInt u.id),
   ("name", Prim.pStr u.name),
   ("email", Prim.pStr u.email)]

/-!
Location operations (src/db.py lines 128-161).
-/

/-- Result of the external `geolocator.geocode(address)` lookup. -/
structure Region where
  latitude : Int
  longitude : Int
deriving DecidableEq, Repr

/-- Embeds `Location.__init__` (src/db.py lines 128-137): stores name and
address verbatim, then dereferences the geocoding result without a null
check; `none` models the exception raised when the external `geocode`
(passed explicitly) cannot resolve the address. In the source the name
defaults to the empty string when absent; the caller passes it here. -/
def Location.construct (geocode : String → Option Region) (name address : String) :
    Option Location :=
  match geocode address with
  | none => none
  | some region =>
    some { id := 0, name := name, address := address,
           latitude := region.latitude, longitude := region.longitude }

/-- The `comments` relationship of a location (src/db.py line 120). -/
def DB.commentsAt (db : DB) (l : Location) : List Comment :=
  db.comments.filter (fun c => c.location_id == l.id)

/-- The `fav_users` relationship of a location (src/db.py lines 125-126). -/
def DB.favUsersOf (db : DB) (l : Location) : List User :=
  (db.association.filter (fun p => p.2 == l.id)).filterMap
    (fun p => db.users.find? (fun u => u.id == p.1))

/-- Embeds `Comment.simple_serialize` (src/db.py lines 210-218). -/
def Comment.simple_serialize (c : Comment) : SimpleObj :=
  [("id", Prim.pInt c.id),
   ("text", Prim.pStr c.text),
   ("timestamp", Prim.pStr (str_dt c.timestamp))]

/-- Embeds `Location.serialize` (src/db.py lines 139-151). -/
def Location.serialize (db : DB) (l : Location) : Obj :=
  [("id", Value.prim (Prim.pInt l.id)),
   ("name", Value.prim (Prim.pStr l.name)),
   ("address", Value.prim (Prim.pStr l.address)),
   ("latitude", Value.prim (Prim.pInt l.latitude)),
   ("longitude", Value.prim (Prim.pInt l.longitude)),
   ("comments", Value.objs ((db.commentsAt l).map Comment.simple_serialize)),
   ("fav_users", Value.objs ((db.favUsersOf l).map User.simple_serialize))]

/-!
Comment operations (src/db.py lines 184-218).
-/

/-- Embeds `Comment.__init__` (src/db.py lines 184-194). The source reads the
clock twice: `session_expiration` uses the first reading `t1` (plus three
minutes, 180 s) and `timestamp` is the second reading `t2`, taken after. -/
def Comment.construct (text : String) (number user_id location_id : Int)
    (t1 t2 : Nat) : Comment :=
  { id := 0, text := text, number := number, user_id := user_id,
    location_id := location_id, session_expiration := t1 + 180,
    timestamp := t2, expired := false }

/-- Embeds `Comment.serialize` (src/db.py lines 196-208): looks up the owning
user and location by their stored ids (`filter_by(id=...).first()`); the
unchecked `.id` dereference on a missing referent is modelled as `none`.
The `expired` field compares the stored expiration with the clock reading
`now` taken during serialization. -/
def Comment.serialize (db : DB) (now : Nat) (c : Comment) : Option Obj :=
  match db.users.find? (fun u => u.id == c.user_id) with
  | none => none
  | some u =>
    match db.locations.find? (fun l => l.id == c.location_id) with
    | none => none
    | some l =>
      some [("id", Value.prim (Prim.pInt c.id)),
            ("text", Value.prim (Prim.pStr c.text)),
            ("user_id", Value.prim (Prim.pInt u.id)),
            ("location_id", Value.prim (Prim.pInt l.id)),
            ("time_stamp", Value.prim (Prim.pStr (str_dt c.timestamp))),
            ("expiration", Value.prim (Prim.pStr (str_dt c.session_expiration))),
            ("expired", Value.prim (Prim.pBool (decide (c.session_expiration ≥ now))))]

/-!
Position operations (src/db.py lines 234-263).
-/

/-- Embeds `Position.__init__` (src/db.py lines 234-241): the timestamp is
the clock reading at creation, never caller-supplied. -/
def Position.construct (user_id latitude longitude : Int) (now : Nat) : Position :=
  { id := 0, user_id := user_id, latitude := latitude, longitude := longitude,
    timestamp := now }

/-- Embeds `Position.serialize` (src/db.py lines 243-253). -/
def Position.serialize (p : Position) : Obj :=
  [("id", Value.prim (Prim.pInt p.id)),
   ("user_id", Value.prim (Prim.pInt p.user_id)),
   ("latitude", Value.prim (Prim.pInt p.latitude)),
   ("longitude", Value.prim (Prim.pInt p.longitude)),
   ("timestamp", Value.prim (Prim.pStr (str_dt p.timestamp)))]

/-- Embeds `Position.simple_serialize` (src/db.py lines 255-263). -/
def Position.simple_serialize (p : Position) : SimpleObj :=
  [("latitude", Prim.pInt p.latitude),
   ("longitude", Prim.pInt p.longitude),
   ("timestamp", Prim.pStr (str_dt p.timestamp))]

/-- Sub is a strict subset of sup as a key set, and the two association lists
agree on the value of every key of sub. -/
def strictSubMap (sub sup : Obj) : Prop :=
  (∀ k, k ∈ sub.map Prod.fst → k ∈ sup.map Prod.fst) ∧
  (∃ k, k ∈ sup.map Prod.fst ∧ k ∉ sub.map Prod.fst) ∧
  (∀ k, k ∈ sub.map Prod.fst → sub.lookup k = sup.lookup k)

/-!
Concrete sample data, used to evaluate the definitions at explicit inputs.
-/

/-- A sample user row. -/
def uEx : User :=
  { id := 1, name := "Ana", email := "ana@x.com", password_digest := "digest",
    session_token := "tok", session_expiration := 1000, update_token := "upd" }

/-- A sample location row. -/
def lEx : Location :=
  { id := 2, name := "Uris", address := "Ithaca", latitude := 42, longitude := -76 }

/-- A sample comment row owned by `uEx` at `lEx`. -/
def cEx : Comment :=
  { id := 3, text := "hi", number := 1, user_id := 1, location_id := 2,
    timestamp := 50, expired := false, session_expiration := 230 }

/-- A sample position row of `uEx`. -/
def pEx : Position :=
  { id := 4, user_id := 1, latitude := 7, longitude := 8, timestamp := 60 }

/-- A sample database state holding the four sample rows. -/
def dbEx : DB :=
  { users := [uEx], locations := [lEx], comments := [cEx], positions := [pEx],
    association := [(1, 2)] }

/-- The value of `Comment.serialize dbEx 100 cEx`, written out. -/
def mEx : Obj :=
  [("id", Value.prim (Prim.pInt 3)),
   ("text", Value.prim (Prim.pStr "hi")),
   ("user_id", Value.prim (Prim.pInt 1)),
   ("location_id", Value.prim (Prim.pInt 2)),
   ("time_stamp", Value.prim (Prim.pStr "50")),
   ("expiration", Value.prim (Prim.pStr "230")),
   ("expired", Value.prim (Prim.pBool true))]

/-- A sample geocoding provider resolving exactly one address. -/
def geocodeEx : String → Option Region :=
  fun a => if a = "Ithaca" then some { latitude := 42, longitude := -76 } else none

/-!
Shape of the SHA-1 hex digest.
-/

theorem toHex8_length (n : Nat) : (toHex8 n).length = 8 := by
  simp [toHex8, String.length]

theorem hexChar_mem_hexDigits (m : Nat) (h : m < 16) : hexChar m ∈ hexDigits := by
  interval_cases m <;> decide

theorem toHex8_data_mem (n : Nat) : ∀ c ∈ (toHex8 n).data, c ∈ hexDigits := by
  intro c hc
  simp [toHex8] at hc
  obtain ⟨i, hi, rfl⟩ := hc
  exact hexChar_mem_hexDigits _ (Nat.mod_lt _ (by decide))

theorem sha1_hexdigest_length (msg : List Nat) : (sha1_hexdigest msg).length = 40 := by
  simp [sha1_hexdigest, String.length_append, toHex8_length]

theorem sha1_hexdigest_hex (msg : List Nat) :
    ∀ c ∈ (sha1_hexdigest msg).data, c ∈ hexDigits := by
  intro c hc
  simp [sha1_hexdigest, String.data_append] at hc
  rcases hc with h | h | h | h | h <;> exact toHex8_data_mem _ _ h

set_option maxRecDepth 100000 in
theorem sha1_hexdigest_empty_vector :
    sha1_hexdigest [] = "da39a3ee5e6b4b0d3255bfef95601890afd80709" := by decide

/-!
Claim theorems.
-/

/-- C1: verify_session_token accepts exactly a matching token whose clock
reading is strictly before the stored expiration; once the current time is
at or past the expiration it returns false even for the correct token. -/
theorem verify_session_token_spec (u : User) (token : String) (now : Nat) :
    u.verify_session_token token now = true ↔
      token = u.session_token ∧ now < u.session_expiration := by
  simp [User.verify_session_token]

theorem verify_session_token_spec_witness :
    User.verify_session_token uEx "tok" 5 = true :=
  (verify_session_token_spec uEx "tok" 5).mpr ⟨rfl, by decide⟩

/-- C2: the expired field of Comment.serialize is computed from the clock at
read time, ignores the stored expired flag, and is true exactly when the
stored expiration is still at or after the current time. -/
theorem comment_serialize_expired_spec (db : DB) (now : Nat) (c : Comment) (m : Obj)
    (h : Comment.serialize db now c = some m) :
    (∀ b : Bool, Comment.serialize db now { c with expired := b } = some m) ∧
    m.lookup "expired" =
      some (Value.prim (Prim.pBool (decide (c.session_expiration ≥ now)))) ∧
    ((decide (c.session_expiration ≥ now) : Bool) = true ↔ now ≤ c.session_expiration) := by
  unfold Comment.serialize at h ⊢
  cases hu : db.users.find? (fun u => u.id == c.user_id) with
  | none => rw [hu] at h; exact absurd h (by simp)
  | some u =>
    cases hl : db.locations.find? (fun l => l.id == c.location_id) with
    | none => rw [hu, hl] at h; exact absurd h (by simp)
    | some l =>
      rw [hu, hl] at h
      refine ⟨fun b => ?_, ?_, by simp⟩
      · show (match db.users.find? (fun u => u.id == c.user_id) with
          | none => none
          | some u => match db.locations.find? (fun l => l.id == c.location_id) with
            | none => none
            | some l => some _) = some m
        rw [hu, hl]
        exact h
      · obtain rfl : _ = m := Option.some.inj h
        simp [List.lookup]

theorem comment_serialize_expired_spec_witness :
    Comment.serialize dbEx 100 cEx = some mEx ∧
    mEx.lookup "expired" = some (Value.prim (Prim.pBool true)) :=
  ⟨by decide, ((comment_serialize_expired_spec dbEx 100 cEx mEx (by decide)).2).1⟩

theorem strictSubMap_user (db : DB) (u : User) :
    strictSubMap (liftObj u.simple_serialize) (User.serialize db u) := by
  refine ⟨?_, ⟨"favorites", by simp [User.serialize],
    by simp [liftObj, User.simple_serialize]⟩, ?_⟩
  · intro k hk
    simp [liftObj, User.simple_serialize] at hk
    rcases hk with rfl | rfl | rfl <;> simp [User.serialize]
  · intro k hk
    simp [liftObj, User.simple_serialize] at hk
    rcases hk with rfl | rfl | rfl <;> rfl

theorem strictSubMap_location (db : DB) (l : Location) :
    strictSubMap (liftObj l.simple_serialize) (Location.serialize db l) := by
  refine ⟨?_, ⟨"latitude", by simp [Location.serialize],
    by simp [liftObj, Location.simple_serialize]⟩, ?_⟩
  · intro k hk
    simp [liftObj, Location.simple_serialize] at hk
    rcases hk with rfl | rfl | rfl <;> simp [Location.serialize]
  · intro k hk
    simp [liftObj, Location.simple_serialize] at hk
    rcases hk with rfl | rfl | rfl <;> rfl

theorem strictSubMap_position (p : Position) :
    strictSubMap (liftObj p.simple_serialize) (Position.serialize p) := by
  refine ⟨?_, ⟨"id", by simp [Position.serialize],
    by simp [liftObj, Position.simple_serialize]⟩, ?_⟩
  · intro k hk
    simp [liftObj, Position.simple_serialize] at hk
    rcases hk with rfl | rfl | rfl <;> simp [Position.serialize]
  · intro k hk
    simp [liftObj, Position.simple_serialize] at hk
    rcases hk with rfl | rfl | rfl <;> rfl

/-- C3 counterexample: for the sample comment, simple_serialize has the key
timestamp but serialize does not (serialize names that field time_stamp), so
the key set of simple_serialize is not a subset of the key set of
serialize. -/
theorem simple_serialize_subset_counterexample :
    Comment.serialize dbEx 100 cEx = some mEx ∧
    "timestamp" ∈ (liftObj (Comment.simple_serialize cEx)).map Prod.fst ∧
    "timestamp" ∉ mEx.map Prod.fst := by decide

/-- C3 amended: the strict-subset-with-agreement property holds for User,
Location and Position; for Comment the keys id and text are shared with
identical values and serialize has strictly more keys, but the third
simple_serialize key is named timestamp while serialize names the same
rendered value time_stamp, so the key-set inclusion fails for Comment. -/
theorem simple_serialize_subset_amended :
    (∀ (db : DB) (u : User), strictSubMap (liftObj u.simple_serialize) (User.serialize db u)) ∧
    (∀ (db : DB) (l : Location),
      strictSubMap (liftObj l.simple_serialize) (Location.serialize db l)) ∧
    (∀ p : Position, strictSubMap (liftObj p.simple_serialize) (Position.serialize p)) ∧
    (∀ (db : DB) (now : Nat) (c : Comment) (m : Obj), Comment.serialize db now c = some m →
      ((liftObj c.simple_serialize).lookup "id" = m.lookup "id" ∧ "id" ∈ m.map Prod.fst) ∧
      ((liftObj c.simple_serialize).lookup "text" = m.lookup "text" ∧
        "text" ∈ m.map Prod.fst) ∧
      "timestamp" ∉ m.map Prod.fst ∧
      m.lookup "time_stamp" = (liftObj c.simple_serialize).lookup "timestamp" ∧
      ∃ k, k ∈ m.map Prod.fst ∧ k ∉ (liftObj c.simple_serialize).map Prod.fst) := by
  refine ⟨strictSubMap_user, strictSubMap_location, strictSubMap_position, ?_⟩
  intro db now c m hm
  unfold Comment.serialize at hm
  cases hu : db.users.find? (fun u => u.id == c.user_id) with
  | none => rw [hu] at hm; exact absurd hm (by simp)
  | some u =>
    cases hl : db.locations.find? (fun l => l.id == c.location_id) with
    | none => rw [hu, hl] at hm; exact absurd hm (by simp)
    | some l =>
      rw [hu, hl] at hm
      obtain rfl : _ = m := Option.some.inj hm
      refine ⟨⟨rfl, by simp⟩, ⟨rfl, by simp⟩, by simp, rfl, ⟨"expired", by simp,
        by simp [liftObj, Comment.simple_serialize]⟩⟩

theorem simple_serialize_subset_amended_witness :
    mEx.lookup "time_stamp" = some (Value.prim (Prim.pStr "50")) :=
  (((simple_serialize_subset_amended.2.2.2) dbEx 100 cEx mEx (by decide)).2.2.2).1

/-- C4 counterexample: with the clock advancing between the two clock reads
of the constructor (first read 0, second read 60), the stored expiration is
180 while the stored timestamp plus three minutes is 240. -/
theorem comment_construct_counterexample :
    (Comment.construct "hi" 1 1 2 0 60).session_expiration ≠
      (Comment.construct "hi" 1 1 2 0 60).timestamp + 180 := by decide

/-- C4 amended: the expiration is three minutes after the first clock read of
the constructor; the stored timestamp is the second, possibly later, read, so
the expiration is at most the timestamp plus three minutes, with equality
exactly when the two reads coincide; the expired flag starts false. -/
theorem comment_construct_amended (text : String) (number user_id location_id : Int)
    (t1 t2 : Nat) (h : t1 ≤ t2) :
    (Comment.construct text number user_id location_id t1 t2).session_expiration = t1 + 180 ∧
    (Comment.construct text number user_id location_id t1 t2).timestamp = t2 ∧
    (Comment.construct text number user_id location_id t1 t2).expired = false ∧
    (Comment.construct text number user_id location_id t1 t2).session_expiration ≤
      (Comment.construct text number user_id location_id t1 t2).timestamp + 180 ∧
    (t1 = t2 →
      (Comment.construct text number user_id location_id t1 t2).session_expiration =
        (Comment.construct text number user_id location_id t1 t2).timestamp + 180) := by
  refine ⟨rfl, rfl, rfl, ?_, fun he => by simp [Comment.construct, he]⟩
  simp [Comment.construct]
  omega

theorem comment_construct_amended_witness :
    (Comment.construct "hi" 1 1 2 5 5).session_expiration = 185 ∧
    (Comment.construct "hi" 1 1 2 5 5).expired = false :=
  ⟨(comment_construct_amended "hi" 1 1 2 5 5 (by decide)).1,
   (comment_construct_amended "hi" 1 1 2 5 5 (by decide)).2.2.1⟩

/-- C5: renew_session issues the two tokens from two independent random
draws, each rendered as a 40-character hexadecimal digest, sets the
expiration one day after the call-time clock reading, and is the operation
run by the User constructor to populate the session fields. -/
theorem renew_session_spec (u : User) (r1 r2 : List Nat) (now : Nat)
    (hashpw : String → String) (name email password : String) :
    (u.renew_session r1 r2 now).session_token = urlsafe_base_64 r1 ∧
    (u.renew_session r1 r2 now).update_token = urlsafe_base_64 r2 ∧
    (u.renew_session r1 r2 now).session_expiration = now + 86400 ∧
    (urlsafe_base_64 r1).length = 40 ∧
    (urlsafe_base_64 r2).length = 40 ∧
    (∀ c ∈ (urlsafe_base_64 r1).data, c ∈ hexDigits) ∧
    (∀ c ∈ (urlsafe_base_64 r2).data, c ∈ hexDigits) ∧
    User.construct hashpw name email password r1 r2 now =
      User.renew_session
        { id := 0, name := name, email := email, password_digest := hashpw password,
          session_token := "", session_expiration := 0, update_token := "" } r1 r2 now :=
  ⟨rfl, rfl, rfl, sha1_hexdigest_length r1, sha1_hexdigest_length r2,
   sha1_hexdigest_hex r1, sha1_hexdigest_hex r2, rfl⟩

theorem renew_session_spec_witness :
    (User.renew_session uEx [] [] 0).session_expiration = 86400 :=
  (renew_session_spec uEx [] [] 0 (fun s => s) "n" "e" "p").2.2.1

/-- C6: User.serialize exposes exactly id, name, email, the simple-serialized
favorites, the session token, the session expiration rendered as text, and
the update token; no password, password-hash, comments or positions field. -/
theorem user_serialize_spec (db : DB) (u : User) :
    (User.serialize db u).map Prod.fst =
      ["id", "name", "email", "favorites", "session_token", "session_expiration",
       "update_token"] ∧
    (User.serialize db u).lookup "id" = some (Value.prim (Prim.pInt u.id)) ∧
    (User.serialize db u).lookup "name" = some (Value.prim (Prim.pStr u.name)) ∧
    (User.serialize db u).lookup "email" = some (Value.prim (Prim.pStr u.email)) ∧
    (User.serialize db u).lookup "favorites" =
      some (Value.objs ((db.favoritesOf u).map Location.simple_serialize)) ∧
    (User.serialize db u).lookup "session_token" =
      some (Value.prim (Prim.pStr u.session_token)) ∧
    (User.serialize db u).lookup "session_expiration" =
      some (Value.prim (Prim.pStr (str_dt u.session_expiration))) ∧
    (User.serialize db u).lookup "update_token" =
      some (Value.prim (Prim.pStr u.update_token)) ∧
    "password" ∉ (User.serialize db u).map Prod.fst ∧
    "password_digest" ∉ (User.serialize db u).map Prod.fst ∧
    "comments" ∉ (User.serialize db u).map Prod.fst ∧
    "positions" ∉ (User.serialize db u).map Prod.fst :=
  ⟨rfl, rfl, rfl, rfl, rfl, rfl, rfl, rfl, by simp [User.serialize], by simp [User.serialize],
   by simp [User.serialize], by simp [User.serialize]⟩

/-- C7: verify_update_token is a pure equality test against the stored update
token; it reads no clock, so its result does not change however the session
expiration is set. -/
theorem verify_update_token_spec (u : User) (token : String) :
    (u.verify_update_token token = true ↔ token = u.update_token) ∧
    ∀ t : Nat, User.verify_update_token { u with session_expiration := t } token =
      u.verify_update_token token := by
  constructor
  · simp [User.verify_update_token]
  · intro t; rfl

theorem verify_update_token_spec_witness :
    User.verify_update_token uEx "upd" = true :=
  ((verify_update_token_spec uEx "upd").1).mpr rfl

/-- C8: Comment.serialize fails exactly when the owning user or the owning
location is missing from the database, returning no partial result, and
otherwise reports exactly the stored foreign keys. -/
theorem comment_serialize_lookup_spec (db : DB) (now : Nat) (c : Comment) :
    (Comment.serialize db now c = none ↔
      db.users.find? (fun u => u.id == c.user_id) = none ∨
      db.locations.find? (fun l => l.id == c.location_id) = none) ∧
    ∀ m : Obj, Comment.serialize db now c = some m →
      m.lookup "user_id" = some (Value.prim (Prim.pInt c.user_id)) ∧
      m.lookup "location_id" = some (Value.prim (Prim.pInt c.location_id)) := by
  unfold Comment.serialize
  cases hu : db.users.find? (fun u => u.id == c.user_id) with
  | none => exact ⟨by simp, fun m hm => by simp at hm⟩
  | some u =>
    cases hl : db.locations.find? (fun l => l.id == c.location_id) with
    | none => exact ⟨by simp, fun m hm => by simp at hm⟩
    | some l =>
      have hu2 : u.id = c.user_id := by
        have := List.find?_some hu
        simpa using this
      have hl2 : l.id = c.location_id := by
        have := List.find?_some hl
        simpa using this
      refine ⟨by simp, fun m hm => ?_⟩
      obtain rfl : _ = m := Option.some.inj hm
      simp [List.lookup, hu2, hl2]

theorem comment_serialize_lookup_spec_witness :
    mEx.lookup "user_id" = some (Value.prim (Prim.pInt 1)) ∧
    mEx.lookup "location_id" = some (Value.prim (Prim.pInt 2)) :=
  ((comment_serialize_lookup_spec dbEx 100 cEx).2) mEx (by decide)

/-- C9: Location construction succeeds exactly when the geocoding provider
resolves the address, storing name and address verbatim and the latitude and
longitude of the single lookup result; with an unresolvable address it
fails. -/
theorem location_construct_spec (geocode : String → Option Region) (name address : String) :
    (∀ r : Region, geocode address = some r →
      Location.construct geocode name address =
        some { id := 0, name := name, address := address,
               latitude := r.latitude, longitude := r.longitude }) ∧
    (geocode address = none → Location.construct geocode name address = none) := by
  constructor
  · intro r hr; simp [Location.construct, hr]
  · intro hn; simp [Location.construct, hn]

theorem location_construct_spec_witness :
    Location.construct geocodeEx "Uris" "Ithaca" =
      some { id := 0, name := "Uris", address := "Ithaca", latitude := 42, longitude := -76 } :=
  (location_construct_spec geocodeEx "Uris" "Ithaca").1
    { latitude := 42, longitude := -76 } (by decide)

/-- C10: renew_session rewrites exactly the three session fields and leaves
the identity, credential and relationship state of the user unchanged. -/
theorem renew_session_frame (u : User) (r1 r2 : List Nat) (now : Nat) :
    u.renew_session r1 r2 now =
      { u with session_token := urlsafe_base_64 r1,
               session_expiration := now + 86400,
               update_token := urlsafe_base_64 r2 } ∧
    (u.renew_session r1 r2 now).id = u.id ∧
    (u.renew_session r1 r2 now).name = u.name ∧
    (u.renew_session r1 r2 now).email = u.email ∧
    (u.renew_session r1 r2 now).password_digest = u.password_digest ∧
    (∀ db : DB, db.commentsOf (u.renew_session r1 r2 now) = db.commentsOf u) ∧
    (∀ db : DB, db.positionsOf (u.renew_session r1 r2 now) = db.positionsOf u) ∧
    (∀ db : DB, db.favoritesOf (u.renew_session r1 r2 now) = db.favoritesOf u) :=
  ⟨rfl, rfl, rfl, rfl, rfl, fun _ => rfl, fun _ => rfl, fun _ => rfl⟩
